import Mathlib

/-
Verification of the Korean-text core of blog-scrutinizer-assets.

The program text is embedded shallowly: Python strings become lists of
Unicode codepoints (`List Nat`), the regex templates of the register
classifier become a small explicit pattern datatype with the exact
backtracking order of the Python re module on these templates, Python floats
become exact rationals, and the non-overlapping left-to-right
scan of re.findall becomes a fuel-indexed scanner (the fuel is the text length, which
bounds the scan since every match consumes at least one character, just
as the Python loops terminate).
-/

namespace Scrutinizer

/-- Characters of a Python string as their Unicode codepoints. -/
def js (s : String) : List Nat := s.toList.map Char.toNat

/-! ## Jamo alphabets (expert_scrutinizer.py lines 12-14, validate_ratio.py lines 26-28) -/

/-- CHOSUNG list from the source (19 leading consonants). -/
def CHOSUNG : List Nat := js "ㄱㄲㄴㄷㄸㄹㅁㅂㅃㅅㅆㅇㅈㅉㅊㅋㅌㅍㅎ"

/-- JUNGSUNG list from the source (21 vowels). -/
def JUNGSUNG : List Nat := js "ㅏㅐㅑㅒㅓㅔㅕㅖㅗㅘㅙㅚㅛㅜㅝㅞㅟㅠㅡㅢㅣ"

/-- The 27 non-empty entries of the JONGSUNG list of the source.  The source list
has the empty string at index 0 ("no coda"); an empty string never equals a
character, so `c in JONGSUNG[1:]` is membership here and `JONGSUNG.index(c)`
for a character `c` is the index here plus one. -/
def JONGSUNG_T : List Nat := js "ㄱㄲㄳㄴㄵㄶㄷㄹㄺㄻㄼㄽㄾㄿㅀㅁㅂㅄㅅㅆㅇㅈㅊㅋㅌㅍㅎ"

/-- The list.index operation of Python for codepoint lists (only ever applied to members). -/
def pyIndex (c : Nat) : List Nat → Nat
  | [] => 0
  | a :: t => if a = c then 0 else pyIndex c t + 1

/-! ## decompose_hangul (expert_scrutinizer.py lines 16-37) -/

/-- The units `decompose_hangul` emits for one character: chosung and
jungsung units, the jongsung unit only when `jong > 0`, and any character
outside the Hangul syllable block unchanged. -/
def decomposeChar (code : Nat) : List Nat :=
  if 0xAC00 ≤ code ∧ code ≤ 0xD7A3 then
    let offset := code - 0xAC00
    let cho := offset / (21 * 28)
    let jung := (offset % (21 * 28)) / 28
    let jong := offset % 28
    CHOSUNG.getD cho 0 :: JUNGSUNG.getD jung 0 ::
      (if jong > 0 then [JONGSUNG_T.getD (jong - 1) 0] else [])
  else [code]

/-- decompose_hangul: concatenation of the per-character units. -/
def decompose_hangul : List Nat → List Nat
  | [] => []
  | c :: rest => decomposeChar c ++ decompose_hangul rest

/-! ## compose_jamo (expert_scrutinizer.py lines 39-67) -/

/-- Syllable reassembly `chr(0xAC00 + cho*21*28 + jung*28 + jong)`. -/
def mkSyl (cho jung jong : Nat) : Nat := 0xAC00 + cho * (21 * 28) + jung * 28 + jong

/-- The body of the while loop of compose_jamo, indexed by fuel.  Every loop
iteration of the source advances `i` by at least one, so running the body
`length` times reproduces the whole loop; the fuel only makes that explicit.
A chosung followed by a jungsung opens a syllable; a following jongsung
candidate is consumed as the coda unless the unit after it is itself a
jungsung (then it belongs to the next syllable as its onset); anything else is a literal. -/
def compose_jamoAux : Nat → List Nat → List Nat
  | 0, s => s
  | _ + 1, [] => []
  | _ + 1, [c] => [c]
  | fuel + 1, c1 :: c2 :: rest =>
    if c1 ∈ CHOSUNG ∧ c2 ∈ JUNGSUNG then
      match rest with
      | [] => [mkSyl (pyIndex c1 CHOSUNG) (pyIndex c2 JUNGSUNG) 0]
      | c3 :: rest2 =>
        if c3 ∈ JONGSUNG_T then
          match rest2 with
          | c4 :: _ =>
            if c4 ∈ JUNGSUNG then
              mkSyl (pyIndex c1 CHOSUNG) (pyIndex c2 JUNGSUNG) 0 :: compose_jamoAux fuel rest
            else
              mkSyl (pyIndex c1 CHOSUNG) (pyIndex c2 JUNGSUNG)
                  (pyIndex c3 JONGSUNG_T + 1) :: compose_jamoAux fuel rest2
          | [] => [mkSyl (pyIndex c1 CHOSUNG) (pyIndex c2 JUNGSUNG) (pyIndex c3 JONGSUNG_T + 1)]
        else
          mkSyl (pyIndex c1 CHOSUNG) (pyIndex c2 JUNGSUNG) 0 :: compose_jamoAux fuel rest
    else
      c1 :: compose_jamoAux fuel (c2 :: rest)

/-- compose_jamo (expert_scrutinizer.py lines 39-67). -/
def compose_jamo (s : List Nat) : List Nat := compose_jamoAux s.length s

/-- A character of a round-trip input: either a valid Hangul syllable, or a
literal that is not itself one of the jamo letters (a jamo literal in the
input can be glued onto a neighbouring unit by the greedy parse). -/
def goodChar (c : Nat) : Prop :=
  (0xAC00 ≤ c ∧ c ≤ 0xD7A3) ∨
    (¬(0xAC00 ≤ c ∧ c ≤ 0xD7A3) ∧ c ∉ CHOSUNG ∧ c ∉ JUNGSUNG ∧ c ∉ JONGSUNG_T)

instance (c : Nat) : Decidable (goodChar c) := by unfold goodChar; infer_instance

/-- What the composer may see ahead in a decomposition of good input: the
stream never starts with a vowel, and when it starts with a jongsung
candidate that candidate is the onset of a following syllable, so a
jungsung comes right after it. -/
def goodStream : List Nat → Prop
  | [] => True
  | [a] => a ∉ JUNGSUNG ∧ a ∉ JONGSUNG_T
  | a :: b :: _ => a ∉ JUNGSUNG ∧ (a ∈ JONGSUNG_T → b ∈ JUNGSUNG)

/-! ## Regex templates of the linguistic audit

Every ending pattern of the source has the shape
`literal-prefix (?:ㅇㅏㅆ|ㅇㅓㅆ|ㄱㅔㅆ)? literal [class]` (the optional
group and the prefix may be absent).  `matchAt` reproduces the backtracking order of Python
on such a template: the three alternatives of the
optional group are tried in order, then the empty alternative. -/

structure JamoPattern where
  pre : List Nat
  tense : Bool
  suf : List Nat
  term : List Nat
deriving DecidableEq

/-- Match a literal at the front of the text; return the rest. -/
def matchLit : List Nat → List Nat → Option (List Nat)
  | [], s => some s
  | _ :: _, [] => none
  | a :: l, c :: s => if a = c then matchLit l s else none

/-- Match the part after the optional group: the literal suffix followed by
one character of the terminal class. -/
def matchTail (suf term s : List Nat) : Option (List Nat) :=
  match matchLit suf s with
  | some (c :: s2) => if c ∈ term then some s2 else none
  | _ => none

/-- The tense/aspect alternatives 았/었/겠 of TENSE_OPT, in jamo, in the
order of the source (expert_scrutinizer.py line 200). -/
def TENSE_ALTS : List (List Nat) := [js "ㅇㅏㅆ", js "ㅇㅓㅆ", js "ㄱㅔㅆ"]

/-- Try the alternatives of the optional group in order, backtracking to the
next alternative (finally to the empty one) when the tail fails. -/
def tryAlts (suf term : List Nat) : List (List Nat) → List Nat → Option (List Nat)
  | [], s => matchTail suf term s
  | alt :: alts, s =>
    match matchLit alt s with
    | some s1 =>
      match matchTail suf term s1 with
      | some r => some r
      | none => tryAlts suf term alts s
    | none => tryAlts suf term alts s

/-- Match a template at the front of the text; return the rest of the text
after the matched span. -/
def matchAt (p : JamoPattern) (s : List Nat) : Option (List Nat) :=
  match matchLit p.pre s with
  | some s1 => if p.tense then tryAlts p.suf p.term TENSE_ALTS s1 else matchTail p.suf p.term s1
  | none => none

/-- The count len(re.findall(p, s)) of non-overlapping matches: scan left to right, on a
match resume after it, otherwise advance one character.  Fuel is the text
length; every match consumes at least one character (the terminal class),
so the scan of the source terminates the same way. -/
def countScanAux (m : List Nat → Option (List Nat)) : Nat → List Nat → Nat
  | 0, _ => 0
  | _ + 1, [] => 0
  | fuel + 1, c :: rest =>
    match m (c :: rest) with
    | some s2 => 1 + countScanAux m fuel s2
    | none => countScanAux m fuel rest

/-- len(re.findall(p, s)) for an ending template. -/
def countMatches (p : JamoPattern) (s : List Nat) : Nat := countScanAux (matchAt p) s.length s

/-- Sum of the match counts of the templates of one level. -/
def levelCount (pats : List JamoPattern) (s : List Nat) : Nat :=
  (pats.map fun p => countMatches p s).sum

/-- The terminal class of declarative/imperative/propositive templates.  The
source writes it `[\\.!]` inside a RAW f-string, so the class holds a
literal backslash besides the period and the exclamation mark. -/
def TERM_DECL : List Nat := js "\\.!"

/-- The terminal class `[\\?]` of interrogative templates: a literal
backslash besides the question mark. -/
def TERM_INT : List Nat := js "\\?"

/-- Template `{TENSE_OPT}suf[class]`. -/
def tp (suf : String) (term : List Nat) : JamoPattern := ⟨[], true, js suf, term⟩

/-- Template `suf[class]` with no optional group. -/
def lp (suf : String) (term : List Nat) : JamoPattern := ⟨[], false, js suf, term⟩

/-- Template `pre{TENSE_OPT}suf[class]` (auxiliary-verb forms). -/
def ap (pre suf : String) (term : List Nat) : JamoPattern := ⟨js pre, true, js suf, term⟩

/-- Templates of 해라체 (speech level 1, expert_scrutinizer.py lines 204-253). -/
def haeRaPatterns : List JamoPattern :=
  [tp "ㄷㅏ" TERM_DECL, tp "ㄴㅡㄴㄷㅏ" TERM_DECL, tp "ㄴㄷㅏ" TERM_DECL,
   tp "ㄷㅓㄹㅏ" TERM_DECL, tp "ㄷㅡㄹㅏ" TERM_DECL, tp "ㄹㅏㄴㄷㅏ" TERM_DECL,
   tp "ㄷㅏㄴㄷㅏ" TERM_DECL, tp "ㄹㅣㄹㅏ" TERM_DECL, tp "ㄱㅜㄴㅏ" TERM_DECL,
   tp "ㄱㅜㄴ" TERM_DECL,
   ap "ㅂㅗ" "ㄷㅏ" TERM_DECL, ap "ㅈㅜ" "ㄷㅏ" TERM_DECL, ap "ㅂㅓㄹㅣ" "ㄷㅏ" TERM_DECL,
   ap "ㄴㅗㅎ" "ㄷㅏ" TERM_DECL, ap "ㄷㅜ" "ㄷㅏ" TERM_DECL, ap "ㄱㅏ" "ㄷㅏ" TERM_DECL,
   ap "ㅇㅗ" "ㄷㅏ" TERM_DECL,
   lp "ㄱㅗㅇㅣㅆㄷㅏ" TERM_DECL, lp "ㄱㅗㅅㅣㅍㄷㅏ" TERM_DECL,
   tp "ㄴㅑ" TERM_INT, tp "ㄴㅡㄴㅑ" TERM_INT, tp "ㄴㅣ" TERM_INT,
   tp "ㄷㅓㄴㅑ" TERM_INT, tp "ㄹㄲㅏ" TERM_INT, tp "ㅇㅡㄹㄲㅏ" TERM_INT,
   lp "ㅇㅏㄹㅏ" TERM_DECL, lp "ㅇㅓㄹㅏ" TERM_DECL, lp "ㅇㅕㄹㅏ" TERM_DECL,
   lp "ㄱㅓㄹㅏ" TERM_DECL, lp "ㄴㅓㄹㅏ" TERM_DECL, lp "ㄹㅕㅁ" TERM_DECL,
   lp "ㅈㅏ" TERM_DECL]

/-- Templates of 해체 (speech level 2, lines 254-293). -/
def haePatterns : List JamoPattern :=
  [tp "ㅇㅓ" TERM_DECL, tp "ㅇㅏ" TERM_DECL, tp "ㅇㅕ" TERM_DECL, tp "ㅈㅣ" TERM_DECL,
   tp "ㄱㅓㄷㅡㄴ" TERM_DECL, tp "ㄴㅔ" TERM_DECL, tp "ㄴㅡㄴㄷㅔ" TERM_DECL,
   tp "ㅈㅏㄴㅎㅏ" TERM_DECL, tp "ㄷㅓㄹㅏㄱㅗ" TERM_DECL, tp "ㄹㄱㅓㄹ" TERM_DECL,
   tp "ㄹㄱㅔ" TERM_DECL,
   lp "ㅂㅘ" TERM_DECL, lp "ㅈㅝ" TERM_DECL, lp "ㅂㅓㄹㅕ" TERM_DECL, lp "ㄴㅘ" TERM_DECL,
   lp "ㄷㅝ" TERM_DECL, lp "ㄱㅏ" TERM_DECL, lp "ㅇㅘ" TERM_DECL,
   lp "ㄱㅗㅇㅣㅆㅇㅓ" TERM_DECL, lp "ㄱㅗㅅㅣㅍㅇㅓ" TERM_DECL,
   tp "ㅇㅓ" TERM_INT, tp "ㅇㅏ" TERM_INT, tp "ㅈㅣ" TERM_INT, tp "ㄴㅡㄴㄷㅔ" TERM_INT]

/-- Templates of 하게체 (speech level 3, lines 294-319). -/
def haGePatterns : List JamoPattern :=
  [tp "ㄴㅔ" TERM_DECL, tp "ㄱㅔㅆㄴㅔ" TERM_DECL, tp "ㄴㄱㅏ" TERM_DECL,
   tp "ㄴㅡㄴㄱㅏ" TERM_DECL,
   tp "ㄴㅏ" TERM_INT, tp "ㄴㅡㄴㄱㅏ" TERM_INT, tp "ㄷㅓㄴㄱㅏ" TERM_INT,
   lp "ㄱㅔ" TERM_DECL, lp "ㄱㅔㄴㅏ" TERM_DECL, lp "ㅅㅔ" TERM_DECL, lp "ㅅㅔㄴㅏ" TERM_DECL]

/-- Templates of 하오체 (speech level 4, lines 320-345). -/
def haOPatterns : List JamoPattern :=
  [tp "ㅇㅗ" TERM_DECL, tp "ㅅㅗ" TERM_DECL, tp "ㄹㅣㅇㅗ" TERM_DECL, tp "ㄱㅜㄹㅕ" TERM_DECL,
   tp "ㅇㅗ" TERM_INT, tp "ㅅㅗ" TERM_INT,
   lp "ㅅㅣㅇㅗ" TERM_DECL,
   lp "ㅂㅅㅣㄷㅏ" TERM_DECL, lp "ㅎㅏㅂㅅㅣㄷㅏ" TERM_DECL, lp "ㄱㅏㅂㅅㅣㄷㅏ" TERM_DECL,
   lp "ㅂㅗㅂㅅㅣㄷㅏ" TERM_DECL]

/-- Templates of 해요체 (speech level 5, lines 346-391). -/
def haeYoPatterns : List JamoPattern :=
  [tp "ㅇㅓㅇㅛ" TERM_DECL, tp "ㅇㅏㅇㅛ" TERM_DECL, tp "ㅇㅕㅇㅛ" TERM_DECL,
   tp "ㅇㅔㅇㅛ" TERM_DECL, tp "ㅇㅖㅇㅛ" TERM_DECL, tp "ㅈㅛ" TERM_DECL,
   tp "ㅈㅣㅇㅛ" TERM_DECL, tp "ㄴㅔㅇㅛ" TERM_DECL, tp "ㄱㅜㄴㅇㅛ" TERM_DECL,
   tp "ㄱㅓㄷㅡㄴㅇㅛ" TERM_DECL, tp "ㅈㅏㄴㅎㅏㅇㅛ" TERM_DECL, tp "ㄴㅡㄴㄷㅔㅇㅛ" TERM_DECL,
   tp "ㄹㄱㅔㅇㅛ" TERM_DECL, tp "ㄹㄲㅓㄹㅇㅛ" TERM_DECL,
   lp "ㅂㅘㅇㅛ" TERM_DECL, lp "ㅈㅝㅇㅛ" TERM_DECL, lp "ㅂㅓㄹㅕㅇㅛ" TERM_DECL,
   lp "ㄴㅘㅇㅛ" TERM_DECL, lp "ㄷㅝㅇㅛ" TERM_DECL,
   lp "ㄱㅗㅇㅣㅆㅇㅓㅇㅛ" TERM_DECL, lp "ㄱㅗㅅㅣㅍㅇㅓㅇㅛ" TERM_DECL,
   tp "ㅇㅓㅇㅛ" TERM_INT, tp "ㅇㅏㅇㅛ" TERM_INT, tp "ㅈㅛ" TERM_INT, tp "ㄴㅏㅇㅛ" TERM_INT,
   tp "ㄹㄲㅏㅇㅛ" TERM_INT, tp "ㄹㄹㅐㅇㅛ" TERM_INT,
   lp "ㅅㅔㅇㅛ" TERM_DECL, lp "ㅈㅜㅅㅔㅇㅛ" TERM_DECL]

/-- Templates of 하십시오체 (speech level 6, lines 392-420). -/
def hasipsioPatterns : List JamoPattern :=
  [tp "ㅅㅡㅂㄴㅣㄷㅏ" TERM_DECL, tp "ㅂㄴㅣㄷㅏ" TERM_DECL, tp "ㅇㅗㅂㄴㅣㄷㅏ" TERM_DECL,
   tp "ㅇㅣㅂㄴㅣㄷㅏ" TERM_DECL, tp "ㄱㅔㅆㅅㅡㅂㄴㅣㄷㅏ" TERM_DECL,
   tp "ㅇㅓㅆㅅㅡㅂㄴㅣㄷㅏ" TERM_DECL, tp "ㅇㅏㅆㅅㅡㅂㄴㅣㄷㅏ" TERM_DECL,
   tp "ㅅㅡㅂㄴㅣㄲㅏ" TERM_INT, tp "ㅂㄴㅣㄲㅏ" TERM_INT, tp "ㅇㅣㅂㄴㅣㄲㅏ" TERM_INT,
   tp "ㅅㅣㅂㄴㅣㄲㅏ" TERM_INT,
   lp "ㅅㅣㅂㅅㅣㅇㅗ" TERM_DECL, lp "ㅅㅗㅅㅓ" TERM_DECL,
   lp "ㅅㅣㅂㅅㅣㄷㅏ" TERM_DECL]

/-! ## Dominant register and consistency (expert_scrutinizer.py lines 423-465) -/

/-- The per-level counts of `classify`, in the insertion order of the
insertion order of the speech_levels dict of the source (level 1 first). -/
def level_counts_of (jamo : List Nat) : List (Nat × Nat) :=
  [(1, levelCount haeRaPatterns jamo), (2, levelCount haePatterns jamo),
   (3, levelCount haGePatterns jamo), (4, levelCount haOPatterns jamo),
   (5, levelCount haeYoPatterns jamo), (6, levelCount hasipsioPatterns jamo)]

/-- The shape of the per-level count list for arbitrary counts: the six
(level, count) items in the insertion order of the speech_levels dict.
Every output of `level_counts_of` has this shape. -/
def counts6 (c1 c2 c3 c4 c5 c6 : Nat) : List (Nat × Nat) :=
  [(1, c1), (2, c2), (3, c3), (4, c4), (5, c5), (6, c6)]

/-- Stable insertion, used to model the Python builtin sorted(..., reverse=True):
a stable sort by count, descending.  On an equal count the element being
inserted (which originally comes first) stays first. -/
def insertDesc (a : Nat × Nat) : List (Nat × Nat) → List (Nat × Nat)
  | [] => [a]
  | b :: t => if b.2 ≤ a.2 then a :: b :: t else b :: insertDesc a t

/-- sorted(level_counts.items(), key=count, reverse=True): the Python builtin
sorted is documented stable, so it equals this stable descending insertion sort. -/
def sortByCountDesc (l : List (Nat × Nat)) : List (Nat × Nat) := l.foldr insertDesc []

/-- sorted_levels[0]: the dominant (level, count) pair. -/
def primaryOf (l : List (Nat × Nat)) : Nat × Nat := (sortByCountDesc l).headD (0, 0)

/-- total_endings: sum of all level counts. -/
def totalOf (l : List (Nat × Nat)) : Nat := (l.map Prod.snd).sum

/-- primary_ratio = primary_count / total_endings (Python floats modelled
exactly by rationals; `mkRat n d = n / d` by `Rat.mkRat_eq_div`, kept in
this kernel-computable form). -/
def primaryRatio (l : List (Nat × Nat)) : ℚ := mkRat (primaryOf l).2 (totalOf l)

/-- Outcome of the register audit: the `total_endings == 0` branch appends
no verdict (undetermined); otherwise the single-register enforcement either
passes (consistent, no error) or fails (mixed, errors += 1). -/
inductive RegisterVerdict where
  | undetermined : RegisterVerdict
  | consistent (level count : Nat) (ratio : ℚ) : RegisterVerdict
  | mixed (level count : Nat) (ratio : ℚ) : RegisterVerdict
deriving DecidableEq

/-- The speech-register part of _audit_linguistic_quality: decompose,
count per level, and when any ending was found enforce the 90% rule on
the share of the dominant level. -/
def registerAudit (text : List Nat) : RegisterVerdict :=
  let counts := level_counts_of (decompose_hangul text)
  let total := totalOf counts
  if 0 < total then
    let p := primaryOf counts
    let ratio := primaryRatio counts
    if mkRat 9 10 ≤ ratio then .consistent p.1 p.2 ratio else .mixed p.1 p.2 ratio
  else .undetermined

/-! ## Clause counting

The terminal-ending patterns of the clause counter are written with the
single-escape classes `[\.!]` / `[\?]` (plain raw strings, no doubled
backslash), so their classes hold only the punctuation marks. -/

/-- The class `[\.!]` of the clause-counting terminal patterns. -/
def CL_DECL : List Nat := js ".!"

/-- The class `[\?]` of the clause-counting interrogative patterns. -/
def CL_INT : List Nat := js "?"

/-- terminal_patterns of _audit_linguistic_quality
(expert_scrutinizer.py lines 118-128). -/
def audit_terminal_patterns : List JamoPattern :=
  [lp "ㄷㅏ" CL_DECL, lp "ㅇㅓ" CL_DECL, lp "ㅇㅏ" CL_DECL, lp "ㅈㅣ" CL_DECL,
   lp "ㄴㅔ" CL_DECL, lp "ㅇㅛ" CL_DECL, lp "ㄴㅣㄷㅏ" CL_DECL,
   lp "ㄴㅑ" CL_INT, lp "ㄴㅣ" CL_INT, lp "ㅈㅏ" CL_DECL, lp "ㄹㅏ" CL_DECL]

/-- Determiner/nominalizer suffix characters 는|ㄴ|은|ㄹ|을|던 of the
embedded-clause regex (expert_scrutinizer.py line 133). -/
def EMB_DETS : List Nat := js "는ㄴ은ㄹ을던"

/-- Head-noun tokens 것|거|때|곳|이|수|줄|법|리 of the embedded-clause regex. -/
def EMB_HEADS : List Nat := js "것거때곳이수줄법리"

/-- The regex class `\s` of Python for str patterns: the 29 codepoints the
re module treats as whitespace (ASCII whitespace, the information
separators U+001C-001F, next line U+0085, no-break space U+00A0, ogham
space U+1680, the U+2000-200A spaces, line and paragraph separators
U+2028/U+2029, narrow no-break U+202F, medium mathematical U+205F and the
ideographic space U+3000). -/
def WS : List Nat :=
  [0x9, 0xA, 0xB, 0xC, 0xD, 0x1C, 0x1D, 0x1E, 0x1F, 0x20, 0x85, 0xA0, 0x1680,
   0x2000, 0x2001, 0x2002, 0x2003, 0x2004, 0x2005, 0x2006, 0x2007, 0x2008,
   0x2009, 0x200A, 0x2028, 0x2029, 0x202F, 0x205F, 0x3000]

/-- Greedy `\s*`: skip the maximal run of whitespace. -/
def dropWs : List Nat → List Nat
  | [] => []
  | c :: t => if c ∈ WS then dropWs t else c :: t

/-- One match of the embedded-clause regex
`(?:는|ㄴ|은|ㄹ|을|던)\s*(?:것|거|때|곳|이|수|줄|법|리)` at the front of the
text (the head tokens are single characters, never whitespace, so the
greedy `\s*` needs no backtracking). -/
def matchEmbedded : List Nat → Option (List Nat)
  | [] => none
  | c :: rest =>
    if c ∈ EMB_DETS then
      match dropWs rest with
      | d :: rest2 => if d ∈ EMB_HEADS then some rest2 else none
      | [] => none
    else none

/-- terminal_clause_count: matches of the terminal patterns on the
jamo-decomposed text (expert_scrutinizer.py line 129). -/
def audit_terminal_count (text : List Nat) : Nat :=
  (audit_terminal_patterns.map fun p => countMatches p (decompose_hangul text)).sum

/-- embedded_clause_count: matches of the embedded regex on the ORIGINAL
(non-decomposed) text (expert_scrutinizer.py lines 133-134). -/
def audit_embedded_count (text : List Nat) : Nat := countScanAux matchEmbedded text.length text

/-! ## validate_ratio.py: the duplicated copies -/

namespace VR

/-- CHOSUNG copy (validate_ratio.py line 26). -/
def CHOSUNG : List Nat := js "ㄱㄲㄴㄷㄸㄹㅁㅂㅃㅅㅆㅇㅈㅉㅊㅋㅌㅍㅎ"

/-- JUNGSUNG copy (validate_ratio.py line 27). -/
def JUNGSUNG : List Nat := js "ㅏㅐㅑㅒㅓㅔㅕㅖㅗㅘㅙㅚㅛㅜㅝㅞㅟㅠㅡㅢㅣ"

/-- Non-empty JONGSUNG entries, copy (validate_ratio.py line 28). -/
def JONGSUNG_T : List Nat := js "ㄱㄲㄳㄴㄵㄶㄷㄹㄺㄻㄼㄽㄾㄿㅀㅁㅂㅄㅅㅆㅇㅈㅊㅋㅌㅍㅎ"

/-- Per-character decomposition, copy (validate_ratio.py lines 31-47). -/
def decomposeChar (code : Nat) : List Nat :=
  if 0xAC00 ≤ code ∧ code ≤ 0xD7A3 then
    let offset := code - 0xAC00
    let cho := offset / (21 * 28)
    let jung := (offset % (21 * 28)) / 28
    let jong := offset % 28
    VR.CHOSUNG.getD cho 0 :: VR.JUNGSUNG.getD jung 0 ::
      (if jong > 0 then [VR.JONGSUNG_T.getD (jong - 1) 0] else [])
  else [code]

/-- decompose_hangul, copy (validate_ratio.py lines 31-47). -/
def decompose_hangul : List Nat → List Nat
  | [] => []
  | c :: rest => VR.decomposeChar c ++ VR.decompose_hangul rest

/-- terminal_patterns of count_clauses (validate_ratio.py lines 77-81). -/
def terminal_patterns : List JamoPattern :=
  [lp "ㄷㅏ" CL_DECL, lp "ㅇㅓ" CL_DECL, lp "ㅇㅏ" CL_DECL, lp "ㅈㅣ" CL_DECL,
   lp "ㄴㅔ" CL_DECL, lp "ㅇㅛ" CL_DECL, lp "ㄴㅣㄷㅏ" CL_DECL,
   lp "ㄴㅑ" CL_INT, lp "ㄴㅣ" CL_INT, lp "ㅈㅏ" CL_DECL, lp "ㄹㅏ" CL_DECL]

end VR

/-- The dict count_clauses returns. -/
structure ClauseCount where
  terminal : Nat
  embedded : Nat
  total : Nat
deriving DecidableEq

/-- count_clauses (validate_ratio.py lines 53-94) on the extracted plain
text (the function first hands content that contains both a `<` and a `>`
to BeautifulSoup; this core receives already-extracted text, spec section 6). -/
def count_clauses (text : List Nat) : ClauseCount :=
  let jamo := VR.decompose_hangul text
  let terminal := (VR.terminal_patterns.map fun p => countMatches p jamo).sum
  let embedded := countScanAux matchEmbedded text.length text
  ⟨terminal, embedded, terminal + embedded⟩

/-! ## validate_ratio (validate_ratio.py lines 107-176) -/

/-- The three message shapes of the result dict: the invalid-input error,
the PASS message and the FAIL message. -/
inductive RatioMessage where
  | invalidInput : RatioMessage
  | passed : RatioMessage
  | failed : RatioMessage
deriving DecidableEq

/-- The action field: the invalid-input recount instruction, the add-n /
remove-n corrective instructions, or None on PASS. -/
inductive RatioAction where
  | recount : RatioAction
  | add (n : ℤ) : RatioAction
  | removeOrExpand (n : ℤ) : RatioAction
  | noAction : RatioAction
deriving DecidableEq

/-- The result dict of validate_ratio.  `ratio = none` models the
infinite-float ratio of the invalid branch (modelled as none). -/
structure RatioResult where
  pass : Bool
  ratio : Option ℚ
  clause_count : ℤ
  phrase_count : ℤ
  message : RatioMessage
  action : RatioAction
deriving DecidableEq

/-- validate_ratio: the invalid-input guard, the inclusive [1.7, 2.3] band
(TARGET_RATIO 2.0 ± TOLERANCE 0.3), and on FAIL the corrective action
computed from ideal_phrases = int(clause_count / 2.0).  Floats are
modelled exactly: `Rat.divInt a b = a / b` by `Rat.divInt_eq_div`. -/
def validate_ratio (clause_count : Nat) (phrase_count : ℤ) : RatioResult :=
  if phrase_count ≤ 0 then
    ⟨false, none, clause_count, phrase_count, .invalidInput, .recount⟩
  else
    let ratio : ℚ := Rat.divInt clause_count phrase_count
    if mkRat 17 10 ≤ ratio ∧ ratio ≤ mkRat 23 10 then
      ⟨true, some ratio, clause_count, phrase_count, .passed, .noAction⟩
    else
      let ideal_phrases : ℤ := clause_count / 2
      if mkRat 23 10 < ratio then
        ⟨false, some ratio, clause_count, phrase_count, .failed, .add (ideal_phrases - phrase_count)⟩
      else
        ⟨false, some ratio, clause_count, phrase_count, .failed,
          .removeOrExpand (phrase_count - ideal_phrases)⟩

end Scrutinizer

namespace Scrutinizer

/-! ## Helper lemmas: jamo tables -/

theorem compose_auxNil (fuel : Nat) : compose_jamoAux fuel [] = [] := by
  cases fuel <;> rfl

theorem cho_getD_mem : ∀ i, i < 19 → CHOSUNG.getD i 0 ∈ CHOSUNG := by decide

theorem jung_getD_mem : ∀ i, i < 21 → JUNGSUNG.getD i 0 ∈ JUNGSUNG := by decide

theorem jong_getD_mem : ∀ i, i < 27 → JONGSUNG_T.getD i 0 ∈ JONGSUNG_T := by decide

theorem cho_index_getD : ∀ i, i < 19 → pyIndex (CHOSUNG.getD i 0) CHOSUNG = i := by decide

theorem jung_index_getD : ∀ i, i < 21 → pyIndex (JUNGSUNG.getD i 0) JUNGSUNG = i := by decide

theorem jong_index_getD : ∀ i, i < 27 → pyIndex (JONGSUNG_T.getD i 0) JONGSUNG_T = i := by decide

theorem cho_not_jung : ∀ c ∈ CHOSUNG, c ∉ JUNGSUNG := by decide

theorem jong_not_jung : ∀ c ∈ JONGSUNG_T, c ∉ JUNGSUNG := by decide

/-! ## Helper lemmas: one step of the composer -/

theorem goodStream_head (a : Nat) (t : List Nat) (h : goodStream (a :: t)) : a ∉ JUNGSUNG := by
  cases t with
  | nil => exact h.1
  | cons b t2 => exact h.1

theorem compose_step_lit (fuel c : Nat) (l : List Nat) (hc : c ∉ CHOSUNG) :
    compose_jamoAux (fuel + 1) (c :: l) = c :: compose_jamoAux fuel l := by
  cases l with
  | nil => simp only [compose_jamoAux, compose_auxNil]
  | cons c2 rest =>
    have hn : ¬(c ∈ CHOSUNG ∧ c2 ∈ JUNGSUNG) := fun h => hc h.1
    simp only [compose_jamoAux, if_neg hn]

theorem compose_step_open (fuel a b : Nat) (l : List Nat) (ha : a ∈ CHOSUNG)
    (hb : b ∈ JUNGSUNG) (hl : goodStream l) :
    compose_jamoAux (fuel + 2) (a :: b :: l) =
      mkSyl (pyIndex a CHOSUNG) (pyIndex b JUNGSUNG) 0 :: compose_jamoAux (fuel + 1) l := by
  cases l with
  | nil => simp only [compose_jamoAux, if_pos (And.intro ha hb), compose_auxNil]
  | cons c3 rest2 =>
    simp only [compose_jamoAux, if_pos (And.intro ha hb)]
    by_cases h3 : c3 ∈ JONGSUNG_T
    · cases rest2 with
      | nil => exact absurd h3 hl.2
      | cons c4 rest3 =>
        have h4 : c4 ∈ JUNGSUNG := hl.2 h3
        simp only [if_pos h3, if_pos h4]
    · simp only [if_neg h3]

theorem compose_step_coda (fuel a b c : Nat) (l : List Nat) (ha : a ∈ CHOSUNG)
    (hb : b ∈ JUNGSUNG) (hc : c ∈ JONGSUNG_T) (hl : goodStream l) :
    compose_jamoAux (fuel + 3) (a :: b :: c :: l) =
      mkSyl (pyIndex a CHOSUNG) (pyIndex b JUNGSUNG) (pyIndex c JONGSUNG_T + 1) ::
        compose_jamoAux (fuel + 2) l := by
  cases l with
  | nil => simp only [compose_jamoAux, if_pos (And.intro ha hb), if_pos hc, compose_auxNil]
  | cons c4 rest3 =>
    have h4 : c4 ∉ JUNGSUNG := goodStream_head c4 rest3 hl
    simp only [compose_jamoAux, if_pos (And.intro ha hb), if_pos hc, if_neg h4]

/-! ## Helper lemmas: shape of a decomposition -/

theorem syllable_indices (code : Nat) (h1 : 0xAC00 ≤ code) (h2 : code ≤ 0xD7A3) :
    (code - 0xAC00) / (21 * 28) < 19 ∧ ((code - 0xAC00) % (21 * 28)) / 28 < 21 ∧
      (code - 0xAC00) % 28 < 28 ∧
      0xAC00 + ((code - 0xAC00) / (21 * 28)) * (21 * 28) +
          (((code - 0xAC00) % (21 * 28)) / 28) * 28 + (code - 0xAC00) % 28 = code := by
  omega

theorem decomposeChar_syl0 (code : Nat) (h : 0xAC00 ≤ code ∧ code ≤ 0xD7A3)
    (hj : (code - 0xAC00) % 28 = 0) :
    decomposeChar code =
      [CHOSUNG.getD ((code - 0xAC00) / (21 * 28)) 0,
       JUNGSUNG.getD (((code - 0xAC00) % (21 * 28)) / 28) 0] := by
  unfold decomposeChar
  rw [if_pos h]
  simp [hj]

theorem decomposeChar_sylj (code : Nat) (h : 0xAC00 ≤ code ∧ code ≤ 0xD7A3)
    (hj : 0 < (code - 0xAC00) % 28) :
    decomposeChar code =
      [CHOSUNG.getD ((code - 0xAC00) / (21 * 28)) 0,
       JUNGSUNG.getD (((code - 0xAC00) % (21 * 28)) / 28) 0,
       JONGSUNG_T.getD ((code - 0xAC00) % 28 - 1) 0] := by
  unfold decomposeChar
  rw [if_pos h]
  simp [hj]

theorem decomposeChar_lit (code : Nat) (h : ¬(0xAC00 ≤ code ∧ code ≤ 0xD7A3)) :
    decomposeChar code = [code] := by
  unfold decomposeChar
  rw [if_neg h]

theorem decompose_goodStream : ∀ xs : List Nat, (∀ c ∈ xs, goodChar c) →
    goodStream (decompose_hangul xs) := by
  intro xs hgood
  cases xs with
  | nil => trivial
  | cons c rest =>
    have hc : goodChar c := hgood c (by simp)
    rw [decompose_hangul]
    rcases hc with ⟨h1, h2⟩ | ⟨_, hcho, hjung, hjong⟩
    · have harith := syllable_indices c h1 h2
      have hb : JUNGSUNG.getD (((c - 0xAC00) % (21 * 28)) / 28) 0 ∈ JUNGSUNG :=
        jung_getD_mem _ harith.2.1
      have hanj : CHOSUNG.getD ((c - 0xAC00) / (21 * 28)) 0 ∉ JUNGSUNG :=
        cho_not_jung _ (cho_getD_mem _ harith.1)
      by_cases hj : 0 < (c - 0xAC00) % 28
      · rw [decomposeChar_sylj c ⟨h1, h2⟩ hj]
        exact ⟨hanj, fun _ => hb⟩
      · rw [decomposeChar_syl0 c ⟨h1, h2⟩ (by omega)]
        exact ⟨hanj, fun _ => hb⟩
    · rw [decomposeChar_lit c (by tauto)]
      cases hrest : decompose_hangul rest with
      | nil => exact ⟨hjung, hjong⟩
      | cons d t => exact ⟨hjung, fun hmem => absurd hmem hjong⟩

theorem roundtripAux : ∀ xs : List Nat, (∀ c ∈ xs, goodChar c) →
    ∀ fuel, (decompose_hangul xs).length ≤ fuel →
    compose_jamoAux fuel (decompose_hangul xs) = xs := by
  intro xs
  induction xs with
  | nil => intro _ fuel _; rw [show decompose_hangul [] = [] from rfl, compose_auxNil]
  | cons c rest ih =>
    intro hgood fuel hfuel
    have hc : goodChar c := hgood c (by simp)
    have hrest : ∀ a ∈ rest, goodChar a := fun a ha => hgood a (by simp [ha])
    have hstream : goodStream (decompose_hangul rest) := decompose_goodStream rest hrest
    rw [decompose_hangul] at hfuel ⊢
    rcases hc with ⟨h1, h2⟩ | ⟨_, hcho, _, _⟩
    · have harith := syllable_indices c h1 h2
      have hamem : CHOSUNG.getD ((c - 0xAC00) / (21 * 28)) 0 ∈ CHOSUNG :=
        cho_getD_mem _ harith.1
      have hbmem : JUNGSUNG.getD (((c - 0xAC00) % (21 * 28)) / 28) 0 ∈ JUNGSUNG :=
        jung_getD_mem _ harith.2.1
      by_cases hj : 0 < (c - 0xAC00) % 28
      · rw [decomposeChar_sylj c ⟨h1, h2⟩ hj] at hfuel ⊢
        simp only [List.cons_append, List.nil_append] at hfuel ⊢
        simp only [List.length_cons] at hfuel
        obtain ⟨k, rfl⟩ : ∃ k, fuel = k + 3 := ⟨fuel - 3, by omega⟩
        have hcmem : JONGSUNG_T.getD ((c - 0xAC00) % 28 - 1) 0 ∈ JONGSUNG_T :=
          jong_getD_mem _ (by omega)
        rw [compose_step_coda k _ _ _ _ hamem hbmem hcmem hstream]
        rw [cho_index_getD _ harith.1, jung_index_getD _ harith.2.1,
          jong_index_getD _ (by omega)]
        rw [ih hrest (k + 2) (by omega)]
        unfold mkSyl
        congr 1
        omega
      · rw [decomposeChar_syl0 c ⟨h1, h2⟩ (by omega)] at hfuel ⊢
        simp only [List.cons_append, List.nil_append] at hfuel ⊢
        simp only [List.length_cons] at hfuel
        obtain ⟨k, rfl⟩ : ∃ k, fuel = k + 2 := ⟨fuel - 2, by omega⟩
        rw [compose_step_open k _ _ _ hamem hbmem hstream]
        rw [cho_index_getD _ harith.1, jung_index_getD _ harith.2.1]
        rw [ih hrest (k + 1) (by omega)]
        unfold mkSyl
        congr 1
        omega
    · rw [decomposeChar_lit c (by tauto)] at hfuel ⊢
      simp only [List.cons_append, List.nil_append] at hfuel ⊢
      simp only [List.length_cons] at hfuel
      obtain ⟨k, rfl⟩ : ∃ k, fuel = k + 1 := ⟨fuel - 1, by omega⟩
      rw [compose_step_lit k c _ hcho]
      rw [ih hrest k (by omega)]

/-! ## Helper lemmas: head of the stable descending sort -/

theorem insertDesc_ne_nil (a : Nat × Nat) (l : List (Nat × Nat)) : insertDesc a l ≠ [] := by
  cases l with
  | nil => simp [insertDesc]
  | cons b t => unfold insertDesc; split <;> simp

theorem insertDesc_headD (a b : Nat × Nat) (t : List (Nat × Nat)) (d : Nat × Nat) :
    (insertDesc a (b :: t)).headD d = if b.2 ≤ a.2 then a else b := by
  unfold insertDesc; split <;> simp

theorem primary_single (a : Nat × Nat) : primaryOf [a] = a := rfl

theorem primary_cons (a x : Nat × Nat) (t : List (Nat × Nat)) :
    primaryOf (a :: x :: t) = if (primaryOf (x :: t)).2 ≤ a.2 then a else primaryOf (x :: t) := by
  unfold primaryOf sortByCountDesc
  rw [List.foldr_cons]
  rcases he : List.foldr insertDesc [] (x :: t) with _ | ⟨y, s⟩
  · rw [List.foldr_cons] at he; exact absurd he (insertDesc_ne_nil _ _)
  · rw [insertDesc_headD]; simp

/-! ## Claim C1 -/

/-- C1 (amended): compose(decompose(x)) == x for every text made of valid
Hangul syllables and non-Hangul literal characters none of which is itself
a jamo letter.  For fully arbitrary non-Hangul literals the claim fails —
see the counterexample — because literal jamo letters survive
decomposition unchanged and the greedy composer then glues them into new
syllables. -/
theorem c1_compose_decompose_roundtrip (x : List Nat) (h : ∀ c ∈ x, goodChar c) :
    compose_jamo (decompose_hangul x) = x :=
  roundtripAux x h (decompose_hangul x).length le_rfl

theorem c1_roundtrip_witness :
    compose_jamo (decompose_hangul (js "전문가들은 좋다! (ok, 123)")) =
      js "전문가들은 좋다! (ok, 123)" :=
  c1_compose_decompose_roundtrip _ (by decide)

/-- C1 counterexample: every character of "ㄷㅏ" is a non-Hangul literal
(outside [0xAC00, 0xD7A3]), decompose keeps the text unchanged, yet
compose glues the two jamo literals into the syllable 다, so the round
trip of the claim fails on it. -/
theorem c1_roundtrip_cex :
    (∀ c ∈ js "ㄷㅏ", ¬(0xAC00 ≤ c ∧ c ≤ 0xD7A3)) ∧
      compose_jamo (decompose_hangul (js "ㄷㅏ")) ≠ js "ㄷㅏ" := by decide

/-! ## Claim C6 -/

/-- C6: decompose_hangul is total: a character in the Hangul block
[0xAC00, 0xD7A3] yields the chosung and jungsung units of the Unicode
offset arithmetic (indices within [0,18], [0,20], [0,27]) plus a jongsung
unit exactly when the jongsung index is positive (two units, never an
empty placeholder, when it is zero), and every other character is emitted
unchanged. -/
theorem c6_decompose_units (code : Nat) :
    (0xAC00 ≤ code ∧ code ≤ 0xD7A3 →
      (code - 0xAC00) / (21 * 28) ≤ 18 ∧ ((code - 0xAC00) % (21 * 28)) / 28 ≤ 20 ∧
        (code - 0xAC00) % 28 ≤ 27 ∧
        decomposeChar code =
          CHOSUNG.getD ((code - 0xAC00) / (21 * 28)) 0 ::
            JUNGSUNG.getD (((code - 0xAC00) % (21 * 28)) / 28) 0 ::
            (if 0 < (code - 0xAC00) % 28 then [JONGSUNG_T.getD ((code - 0xAC00) % 28 - 1) 0]
             else []) ∧
        ((code - 0xAC00) % 28 = 0 ↔ (decomposeChar code).length = 2)) ∧
    (¬(0xAC00 ≤ code ∧ code ≤ 0xD7A3) → decomposeChar code = [code]) ∧
    (∀ rest : List Nat, decompose_hangul (code :: rest) = decomposeChar code ++ decompose_hangul rest) := by
  refine ⟨fun h => ?_, fun h => decomposeChar_lit code h, fun rest => rfl⟩
  have harith := syllable_indices code h.1 h.2
  refine ⟨by omega, by omega, by omega, ?_, ?_⟩
  · unfold decomposeChar
    rw [if_pos h]
  · constructor
    · intro hj
      rw [decomposeChar_syl0 code h hj]
      rfl
    · intro hlen
      by_contra hj
      rw [decomposeChar_sylj code h (by omega)] at hlen
      simp at hlen

/-! ## Claim C10 -/

/-- C10: the duplicated copies agree extensionally: decompose_hangul of
expert_scrutinizer.py and of validate_ratio.py return the same output on
every input, and the terminal/embedded clause counts computed inline in
_audit_linguistic_quality equal the fields count_clauses returns for the
same extracted text. -/
theorem c10_duplicate_copies_agree :
    (∀ text : List Nat, decompose_hangul text = VR.decompose_hangul text) ∧
    (∀ text : List Nat, audit_terminal_count text = (count_clauses text).terminal) ∧
    (∀ text : List Nat, audit_embedded_count text = (count_clauses text).embedded) := by
  have hdec : ∀ text : List Nat, decompose_hangul text = VR.decompose_hangul text := by
    intro text
    induction text with
    | nil => rfl
    | cons c rest ih =>
      rw [decompose_hangul, VR.decompose_hangul, ih]
      rfl
  refine ⟨hdec, fun text => ?_, fun text => rfl⟩
  show (audit_terminal_patterns.map fun p => countMatches p (decompose_hangul text)).sum = _
  rw [hdec text]
  rfl

/-! ## Claim C2 -/

/-- C2: for every per-level count list as classify produces it (the
coverage conjunct shows every classify output has the `counts6` shape),
the dominant selection picks a level whose count is maximal, an exact tie
is broken toward the lowest ordinal (a level wins only when every lower
ordinal has a strictly smaller count), and the reported ratio is
dominantCount / totalCountAcrossAllLevels. -/
theorem c2_dominant_spec (c1 c2 c3 c4 c5 c6 : Nat)
    (_ht : 0 < totalOf (counts6 c1 c2 c3 c4 c5 c6)) :
    primaryRatio (counts6 c1 c2 c3 c4 c5 c6) =
      ((primaryOf (counts6 c1 c2 c3 c4 c5 c6)).2 : ℚ) /
        (totalOf (counts6 c1 c2 c3 c4 c5 c6) : ℚ) ∧
    (∀ jamo : List Nat, level_counts_of jamo =
      counts6 (levelCount haeRaPatterns jamo) (levelCount haePatterns jamo)
        (levelCount haGePatterns jamo) (levelCount haOPatterns jamo)
        (levelCount haeYoPatterns jamo) (levelCount hasipsioPatterns jamo)) ∧
    c1 ≤ (primaryOf (counts6 c1 c2 c3 c4 c5 c6)).2 ∧
    c2 ≤ (primaryOf (counts6 c1 c2 c3 c4 c5 c6)).2 ∧
    c3 ≤ (primaryOf (counts6 c1 c2 c3 c4 c5 c6)).2 ∧
    c4 ≤ (primaryOf (counts6 c1 c2 c3 c4 c5 c6)).2 ∧
    c5 ≤ (primaryOf (counts6 c1 c2 c3 c4 c5 c6)).2 ∧
    c6 ≤ (primaryOf (counts6 c1 c2 c3 c4 c5 c6)).2 ∧
    1 ≤ (primaryOf (counts6 c1 c2 c3 c4 c5 c6)).1 ∧
    (primaryOf (counts6 c1 c2 c3 c4 c5 c6)).1 ≤ 6 ∧
    ((primaryOf (counts6 c1 c2 c3 c4 c5 c6)).1 = 1 →
      (primaryOf (counts6 c1 c2 c3 c4 c5 c6)).2 = c1) ∧
    ((primaryOf (counts6 c1 c2 c3 c4 c5 c6)).1 = 2 →
      (primaryOf (counts6 c1 c2 c3 c4 c5 c6)).2 = c2 ∧ c1 < c2) ∧
    ((primaryOf (counts6 c1 c2 c3 c4 c5 c6)).1 = 3 →
      (primaryOf (counts6 c1 c2 c3 c4 c5 c6)).2 = c3 ∧ c1 < c3 ∧ c2 < c3) ∧
    ((primaryOf (counts6 c1 c2 c3 c4 c5 c6)).1 = 4 →
      (primaryOf (counts6 c1 c2 c3 c4 c5 c6)).2 = c4 ∧ c1 < c4 ∧ c2 < c4 ∧ c3 < c4) ∧
    ((primaryOf (counts6 c1 c2 c3 c4 c5 c6)).1 = 5 →
      (primaryOf (counts6 c1 c2 c3 c4 c5 c6)).2 = c5 ∧
        c1 < c5 ∧ c2 < c5 ∧ c3 < c5 ∧ c4 < c5) ∧
    ((primaryOf (counts6 c1 c2 c3 c4 c5 c6)).1 = 6 →
      (primaryOf (counts6 c1 c2 c3 c4 c5 c6)).2 = c6 ∧
        c1 < c6 ∧ c2 < c6 ∧ c3 < c6 ∧ c4 < c6 ∧ c5 < c6) := by
  refine ⟨by simp [primaryRatio, Rat.mkRat_eq_div], fun jamo => rfl, ?_⟩
  simp only [counts6, primary_cons, primary_single]
  split_ifs <;> simp_all <;> omega

theorem c2_dominant_witness :
    primaryOf (counts6 9 0 0 0 1 0) = (1, 9) ∧ 9 ≤ (primaryOf (counts6 9 0 0 0 1 0)).2 :=
  ⟨by decide, (c2_dominant_spec 9 0 0 0 1 0 (by decide)).2.2.1⟩

/-! ## Claim C3 -/

set_option maxHeartbeats 16000000 in
/-- C3: the register consistency verdict passes exactly when the dominant
ratio is at least 0.90 (mkRat 9 10 = 9/10, boundary inclusive); on the
ten-sentence text with nine level-1 "-다." endings and one level-5
"-어요." ending classify reports counts 9 and 1, dominant level 1 with
ratio 9/10 and the consistent verdict, while eight "-다." endings and one
"-어요." ending give ratio 8/9 < 9/10 and the mixed (FAIL) verdict. -/
theorem c3_register_consistency_boundary :
    (∀ text : List Nat, (∃ level count ratio, registerAudit text = .consistent level count ratio) ↔
      0 < totalOf (level_counts_of (decompose_hangul text)) ∧
        mkRat 9 10 ≤ primaryRatio (level_counts_of (decompose_hangul text))) ∧
    (∀ text : List Nat, (∃ level count ratio, registerAudit text = .mixed level count ratio) ↔
      0 < totalOf (level_counts_of (decompose_hangul text)) ∧
        primaryRatio (level_counts_of (decompose_hangul text)) < mkRat 9 10) ∧
    (mkRat 9 10 : ℚ) = 9 / 10 ∧ (mkRat 8 9 : ℚ) = 8 / 9 ∧
    level_counts_of (decompose_hangul
        (js "하다.하다.하다.하다.하다.하다.하다.하다.하다.먹어요.")) =
      [(1, 9), (2, 0), (3, 0), (4, 0), (5, 1), (6, 0)] ∧
    registerAudit (js "하다.하다.하다.하다.하다.하다.하다.하다.하다.먹어요.") =
      .consistent 1 9 (mkRat 9 10) ∧
    registerAudit (js "하다.하다.하다.하다.하다.하다.하다.하다.먹어요.") =
      .mixed 1 8 (mkRat 8 9) := by
  refine ⟨?_, ?_, by norm_num [Rat.mkRat_eq_div], by norm_num [Rat.mkRat_eq_div],
    rfl, rfl, rfl⟩
  · intro text
    simp only [registerAudit]
    split_ifs with h1 h2
    · exact iff_of_true ⟨_, _, _, rfl⟩ ⟨h1, h2⟩
    · refine iff_of_false ?_ ?_
      · rintro ⟨l, c, r, hh⟩
        exact hh.elim
      · rintro ⟨_, hle⟩
        exact h2 hle
    · refine iff_of_false ?_ ?_
      · rintro ⟨l, c, r, hh⟩
        exact hh.elim
      · rintro ⟨h0, _⟩
        exact h1 h0
  · intro text
    simp only [registerAudit]
    split_ifs with h1 h2
    · refine iff_of_false ?_ ?_
      · rintro ⟨l, c, r, hh⟩
        exact hh.elim
      · rintro ⟨_, hlt⟩
        exact absurd h2 (not_le.mpr hlt)
    · exact iff_of_true ⟨_, _, _, rfl⟩ ⟨h1, not_le.mp h2⟩
    · refine iff_of_false ?_ ?_
      · rintro ⟨l, c, r, hh⟩
        exact hh.elim
      · rintro ⟨h0, _⟩
        exact h1 h0

/-! ## Claim C8 -/

/-- C8: classify never fails: the verdict is the distinct undetermined
outcome exactly when the total match count over all six levels is zero —
never the mixed (low-ratio FAIL) or consistent outcome, with no division
performed — as on a text with no Korean ending at all. -/
theorem c8_zero_total_undetermined :
    (∀ text : List Nat, registerAudit text = .undetermined ↔
      totalOf (level_counts_of (decompose_hangul text)) = 0) ∧
    (∀ level count ratio, RegisterVerdict.undetermined ≠ .mixed level count ratio ∧
      RegisterVerdict.undetermined ≠ .consistent level count ratio) ∧
    registerAudit (js "hello, world 123") = .undetermined := by
  refine ⟨?_, fun l c r => ⟨by simp, by simp⟩, by decide⟩
  intro text
  simp only [registerAudit]
  split_ifs with h1 h2 <;> simp_all <;> omega

/-! ## Claim C7 -/

/-- C7: count_clauses always returns total = terminal + embedded, where
the terminal count scans the fixed sentence-final templates over the
jamo-decomposed text and the embedded count scans the determiner/
nominalizer-plus-head-noun pattern over the ORIGINAL text; evaluated on
the two-terminal, one-embedded sample this gives ⟨2, 1, 3⟩, and the
optional whitespace includes Unicode whitespace such as the ideographic
space U+3000. -/
theorem c7_count_clauses_total (text : List Nat) :
    (count_clauses text).total = (count_clauses text).terminal + (count_clauses text).embedded ∧
    (count_clauses text).terminal =
      (VR.terminal_patterns.map fun p => countMatches p (VR.decompose_hangul text)).sum ∧
    (count_clauses text).embedded = countScanAux matchEmbedded text.length text ∧
    count_clauses (js "하는 것을 한다. 것이다.") = ⟨2, 1, 3⟩ ∧
    (count_clauses (js "하는　것")).embedded = 1 :=
  ⟨rfl, rfl, rfl, by decide, by decide⟩

/-! ## Claim C4 -/

/-- C4: with a positive phrase count, validate computes
ratio = clauseCount / phraseCount, passes exactly on the inclusive band
[1.7, 2.3], and on failure uses idealPhraseCount = floor(clauseCount / 2):
add (ideal − phrase) phrases when the ratio is too high, remove/expand
(phrase − ideal) when too low; validate(20, 10) passes with ratio 2 and
validate(20, 5) fails with ratio 4 and action add 5. -/
theorem c4_validate_band (c : Nat) (p : ℤ) (hp : 0 < p) :
    (validate_ratio c p).ratio = some ((c : ℚ) / (p : ℚ)) ∧
    ((validate_ratio c p).pass = true ↔
      (17 / 10 : ℚ) ≤ (c : ℚ) / (p : ℚ) ∧ (c : ℚ) / (p : ℚ) ≤ 23 / 10) ∧
    ((23 / 10 : ℚ) < (c : ℚ) / (p : ℚ) →
      (validate_ratio c p).action = .add ((c : ℤ) / 2 - p)) ∧
    ((c : ℚ) / (p : ℚ) < 17 / 10 →
      (validate_ratio c p).action = .removeOrExpand (p - (c : ℤ) / 2)) ∧
    validate_ratio 20 10 = ⟨true, some 2, 20, 10, .passed, .noAction⟩ ∧
    validate_ratio 20 5 = ⟨false, some 4, 20, 5, .failed, .add 5⟩ := by
  have hnp : ¬p ≤ 0 := by omega
  have hb17 : (mkRat 17 10 : ℚ) = 17 / 10 := by norm_num [Rat.mkRat_eq_div]
  have hb23 : (mkRat 23 10 : ℚ) = 23 / 10 := by norm_num [Rat.mkRat_eq_div]
  have hdiv : (Rat.divInt (c : ℤ) p : ℚ) = (c : ℚ) / (p : ℚ) := by
    rw [Rat.divInt_eq_div]
    norm_num
  have hres : validate_ratio c p =
      if (17 / 10 : ℚ) ≤ (c : ℚ) / (p : ℚ) ∧ (c : ℚ) / (p : ℚ) ≤ (23 / 10 : ℚ) then
        ⟨true, some ((c : ℚ) / (p : ℚ)), c, p, .passed, .noAction⟩
      else if (23 / 10 : ℚ) < (c : ℚ) / (p : ℚ) then
        ⟨false, some ((c : ℚ) / (p : ℚ)), c, p, .failed, .add ((c : ℤ) / 2 - p)⟩
      else
        ⟨false, some ((c : ℚ) / (p : ℚ)), c, p, .failed,
          .removeOrExpand (p - (c : ℤ) / 2)⟩ := by
    simp only [validate_ratio, if_neg hnp]
    rw [hdiv, hb17, hb23]
  have h2040 : (2 : ℚ) = Rat.divInt 20 10 := by
    rw [Rat.divInt_eq_div]
    norm_num
  have h45 : (4 : ℚ) = Rat.divInt 20 5 := by
    rw [Rat.divInt_eq_div]
    norm_num
  refine ⟨?_, ?_, ?_, ?_, by rw [h2040]; decide, by rw [h45]; decide⟩
  · rw [hres]
    split_ifs <;> rfl
  · rw [hres]
    split_ifs with h1 h2 <;> simpa using h1
  · rw [hres]
    split_ifs with h1 h2
    · intro hgt
      exfalso
      have := h1.2
      linarith
    · intro _
      rfl
    · intro hgt
      exact absurd hgt h2
  · rw [hres]
    split_ifs with h1 h2
    · intro hlt
      exfalso
      have := h1.1
      linarith
    · intro hlt
      exfalso
      linarith
    · intro _
      rfl

theorem c4_validate_witness :
    (validate_ratio 20 5).ratio = some (((20 : Nat) : ℚ) / ((5 : ℤ) : ℚ)) :=
  (c4_validate_band 20 5 (by decide)).1

/-! ## Claim C5 -/

/-- C5: validate_ratio reports the invalid-input failure exactly when
phraseCount ≤ 0, as a structured result (pass false, infinite ratio
modelled by none, recount action) rather than an exception or a coerced
division; validate(10, 0) takes this branch instead of dividing by zero. -/
theorem c5_invalid_input_guard (c : Nat) (p : ℤ) :
    ((validate_ratio c p).message = .invalidInput ↔ p ≤ 0) ∧
    (p ≤ 0 → validate_ratio c p = ⟨false, none, c, p, .invalidInput, .recount⟩) ∧
    (validate_ratio 10 0).message = .invalidInput ∧
    (validate_ratio 10 0).ratio = none ∧ (validate_ratio 10 0).pass = false := by
  refine ⟨?_, ?_, by decide, by decide, by decide⟩
  · simp only [validate_ratio]
    split_ifs with h1 h2 h3 <;> simp_all
  · intro hp
    simp only [validate_ratio]
    rw [if_pos hp]

/-! ## Claim C9 -/

/-- C9: evaluation at the failing input of the terminal-class slip.  The
doubled backslash of the raw f-string puts a literal backslash into the
terminal character classes, so the 해라체 propositive template ㅈㅏ
matches the text 자 followed by a backslash — no sentence-terminal
punctuation anywhere — and the register audit even reports a consistent
verdict for it. -/
theorem c9_backslash_terminator_bug :
    TERM_DECL = [0x5C, 0x2E, 0x21] ∧ TERM_INT = [0x5C, 0x3F] ∧
    (0x5C ∈ TERM_DECL ∧ 0x5C ∈ TERM_INT) ∧
    decompose_hangul (js "자\\") = js "ㅈㅏ\\" ∧
    levelCount haeRaPatterns (decompose_hangul (js "자\\")) = 1 ∧
    registerAudit (js "자\\") = .consistent 1 1 1 := by decide

end Scrutinizer

